import Mathlib

/-!
Shallow embedding of the ticker-server core (`app/services/ticker.py`,
`app/services/cache.py`, `app/clients/coinbase.py`, `app/clients/polygon.py`)
and proofs about it.

Python dictionaries are modelled as association lists looked up by first
match; mutating methods are modelled by explicit state passing; `await`ed
network calls are modelled by passing the upstream outcome as an argument;
raised exceptions are modelled with `Except` / explicit result constructors.
Times (`datetime.utcnow()`) are integers and durations are integer
differences.
-/

/-- A Python value as stored in the dictionaries this code builds: a string,
a number (Python floats/ints are modelled as rationals), or `None`. -/
inductive PyVal where
  | str (s : String)
  | num (q : Rat)
  | none
deriving DecidableEq, Repr

/-- A Python dict, as an association list; lookup takes the first match. -/
abbrev Dict := List (String × PyVal)

/-- `d[k]` / `d.get(k)`: first entry with key `k`, if any. -/
def dget (d : Dict) (k : String) : Option PyVal :=
  (d.find? (fun p => p.1 == k)).map (fun p => p.2)

/-- Python `str.lower()` (the symbols this service handles are ASCII). -/
def strLower (s : String) : String := ⟨s.data.map Char.toLower⟩

/-- Python `str.upper()` (the symbols this service handles are ASCII). -/
def strUpper (s : String) : String := ⟨s.data.map Char.toUpper⟩

/-! ## CacheService (`app/services/cache.py`) -/

/-- The value stored under a key by `CacheService.set`:
`{'data': ..., 'timestamp': datetime.utcnow()}`. -/
structure CacheEntry where
  data : Dict
  timestamp : Int
deriving DecidableEq, Repr

/-- `CacheService`: field `cache` models `self._cache`, `ttl` models
`self._ttl` (the `ttl_seconds` constructor argument). -/
structure CacheService where
  cache : List (String × CacheEntry)
  ttl : Int
deriving DecidableEq, Repr

/-- `self._cache.get(key)`. -/
def lookupEntry (l : List (String × CacheEntry)) (k : String) : Option CacheEntry :=
  (l.find? (fun p => p.1 == k)).map (fun p => p.2)

/-- `self._cache.pop(key, None)` / `del self._cache[key]`: drop the key. -/
def eraseKey (l : List (String × CacheEntry)) (k : String) : List (String × CacheEntry) :=
  l.filter (fun p => !(p.1 == k))

/-- `CacheService._is_valid` on an entry produced by `set` (such entries are
non-empty and always carry a timestamp):
`datetime.utcnow() - cache_time < timedelta(seconds=self._ttl)`. -/
def CacheService.is_valid (c : CacheService) (e : CacheEntry) (now : Int) : Bool :=
  now - e.timestamp < c.ttl

/-- `CacheService.get`: return the data if the entry exists and is valid;
if it exists but is expired, pop it; report `none` otherwise. Returns the
value (if any) together with the cache state after the call. -/
def CacheService.get (c : CacheService) (now : Int) (key : String) :
    Option Dict × CacheService :=
  match lookupEntry c.cache key with
  | some e =>
    if c.is_valid e now then (some e.data, c)
    else (Option.none, { c with cache := eraseKey c.cache key })
  | Option.none => (Option.none, c)

/-- `CacheService.set`: overwrite `key` with the data stamped `now`. -/
def CacheService.set (c : CacheService) (now : Int) (key : String) (d : Dict) :
    CacheService :=
  { c with cache := (key, ⟨d, now⟩) :: eraseKey c.cache key }

/-- `CacheService.clear`: `self._cache.clear()`. -/
def CacheService.clear (c : CacheService) : CacheService :=
  { c with cache := [] }

/-! ## Symbol resolution (`TickerService._resolve_symbol`) -/

/-- A Python `Dict[str, str]` lookup, first match. -/
def lookupStr (m : List (String × String)) (k : String) : Option String :=
  (m.find? (fun p => p.1 == k)).map (fun p => p.2)

/-- `TICKER_MAPPING` from `app/core/dependencies.py`. -/
def TICKER_MAPPING : List (String × String) := [("gold", "XAU")]

/-- `TickerService._resolve_symbol`:
`self.ticker_mapping.get(ticker.lower(), ticker)`. -/
def resolve_symbol (mapping : List (String × String)) (ticker : String) : String :=
  match lookupStr mapping (strLower ticker) with
  | some resolved => resolved
  | Option.none => ticker

/-! ## Provider results and the price pipeline (`TickerService`) -/

/-- The three data sources the pipeline can try, in the order
`_get_price_data_sources` may emit them. -/
inductive Source where
  | coinbase
  | polygon
  | yfinance
deriving DecidableEq, Repr

/-- Outcome of one adapter call, `await source_func(symbol)`:
`quote d` means the call returned the dict `d`; `noData` means it returned
`None`; `failure` means it raised (`ExternalAPIError` or any other
exception) — both exception arms of the pipeline loop continue. -/
inductive ProviderResult where
  | quote (d : Dict)
  | noData
  | failure
deriving DecidableEq, Repr

/-- The exceptions this embedding needs to distinguish. -/
inductive TickerError where
  | dataSourceUnavailable (symbol : String)
  | attributeError
deriving DecidableEq, Repr

/-- The `TickerService` configuration: `ticker_mapping` is the constructor
argument of the same name; `polygon_client` records whether
`self.polygon_client` is non-`None` (a Polygon API key was supplied). -/
structure TickerService where
  ticker_mapping : List (String × String)
  polygon_client : Bool
deriving DecidableEq, Repr

/-- `TickerService._get_price_data_sources`: Coinbase first exactly when the
symbol upper-cases to `XAU`, then Polygon exactly when configured, then
YFinance always. -/
def get_price_data_sources (svc : TickerService) (symbol : String) : List Source :=
  (if strUpper symbol = "XAU" then [Source.coinbase] else []) ++
    (if svc.polygon_client then [Source.polygon] else []) ++
      [Source.yfinance]

/-- Result of one `get_price_data` run: the returned data or raised error,
the cache state after the run, and the adapters tried, in order. -/
structure RunResult where
  result : Except TickerError Dict
  cache : CacheService
  tried : List Source
deriving Repr

/-- The `for source_name, source_func in data_sources` loop of
`TickerService.get_price_data`: on a truthy dict, cache it under `key` and
return it; on `None` (or a falsy dict) continue; on a raised exception log
and continue; when the list is exhausted raise
`DataSourceUnavailableError` for `symbol`. -/
def get_price_loop (fetch : Source → ProviderResult) (now : Int)
    (key symbol : String) : List Source → CacheService → RunResult
  | [], c => ⟨Except.error (TickerError.dataSourceUnavailable symbol), c, []⟩
  | s :: rest, c =>
    match fetch s with
    | ProviderResult.quote d =>
      if d.isEmpty then
        let r := get_price_loop fetch now key symbol rest c
        ⟨r.result, r.cache, s :: r.tried⟩
      else
        ⟨Except.ok d, c.set now key d, [s]⟩
    | ProviderResult.noData =>
      let r := get_price_loop fetch now key symbol rest c
      ⟨r.result, r.cache, s :: r.tried⟩
    | ProviderResult.failure =>
      let r := get_price_loop fetch now key symbol rest c
      ⟨r.result, r.cache, s :: r.tried⟩

/-- `TickerService.get_price_data`: resolve the symbol, consult the cache
under `"price_" + symbol`, and on a miss (or falsy cached dict) walk the
ordered source list. `fetch` gives each adapter's outcome for this symbol
during this run. -/
def get_price_data (svc : TickerService) (c : CacheService) (now : Int)
    (fetch : Source → ProviderResult) (ticker : String) : RunResult :=
  let symbol := resolve_symbol svc.ticker_mapping ticker
  let key := "price_" ++ symbol
  match CacheService.get c now key with
  | (some d, c1) =>
    if d.isEmpty then
      get_price_loop fetch now key symbol (get_price_data_sources svc symbol) c1
    else ⟨Except.ok d, c1, []⟩
  | (Option.none, c1) =>
    get_price_loop fetch now key symbol (get_price_data_sources svc symbol) c1

/-- The attribute names `TickerService.__init__` assigns on `self`. -/
def tickerServiceAttrNames : List String :=
  ["cache", "ticker_mapping", "polygon_client", "coinbase_client", "yfinance_client"]

/-- The attribute name `TickerService.clear_cache` dereferences on `self`
(`self.cache_service.clear()`). -/
def clearCacheAttrName : String := "cache_service"

/-- `TickerService.clear_cache`: if the dereferenced attribute exists, clear
the cache; otherwise Python raises `AttributeError`, which the
`except Exception` clause logs and re-raises. On error the caller's cache
state is unchanged (the erroring call performed no mutation). -/
def TickerService.clear_cache (c : CacheService) : Except TickerError CacheService :=
  if clearCacheAttrName ∈ tickerServiceAttrNames then
    Except.ok (CacheService.clear c)
  else
    Except.error TickerError.attributeError

/-! ## HTTP outcomes and the Coinbase / Polygon adapters -/

/-- Outcome of one `await client.get(url, ...)`: a timeout
(`httpx.TimeoutException`), a connection-level error
(`httpx.RequestError`), or a response carrying a status code and a body. -/
inductive HttpResult (β : Type) where
  | timeout
  | requestError
  | response (status : Nat) (body : β)
deriving DecidableEq, Repr

/-- Whether an upstream outcome is a network-level failure (timeout or
connection error), as opposed to a received response. -/
def isNetworkFailure {β : Type} : HttpResult β → Bool
  | HttpResult.timeout => true
  | HttpResult.requestError => true
  | HttpResult.response _ _ => false

/-- A Coinbase `exchange-rates` response body, as the client reads it:
a truthy, parseable `data.rates.USD` value, a parseable JSON with that rate
missing or falsy, or a body whose parsing raises (malformed JSON, or a
non-numeric rate making `float(usd_rate)` raise). -/
inductive CoinbaseBody where
  | rate (usd : Rat)
  | noUsdRate
  | malformed
deriving DecidableEq, Repr

/-- The dict `CoinbaseClient.get_ticker_data` builds from a USD rate. -/
def coinbaseDict (price : Rat) : Dict :=
  [("symbol", PyVal.str "XAU"),
   ("price", PyVal.num price),
   ("open", PyVal.num price),
   ("high", PyVal.num price),
   ("low", PyVal.num price),
   ("volume", PyVal.num 0),
   ("source", PyVal.str "coinbase_gold"),
   ("currency", PyVal.str "USD"),
   ("commodity", PyVal.str "gold")]

/-- `CoinbaseClient.get_ticker_data`: any symbol not upper-casing to `XAU`
returns `None` before any network activity (`net` is unused on that path);
otherwise a 200 response with a USD rate yields the spot-price dict, a 200
response without one or a non-200 status yields `None`, and timeouts,
request errors and parse exceptions are re-raised by `_handle_error` as
`ExternalAPIError`. -/
def coinbase_get_ticker_data (symbol : String) (net : HttpResult CoinbaseBody) :
    ProviderResult :=
  if strUpper symbol ≠ "XAU" then ProviderResult.noData
  else
    match net with
    | HttpResult.timeout => ProviderResult.failure
    | HttpResult.requestError => ProviderResult.failure
    | HttpResult.response status body =>
      if status = 200 then
        match body with
        | CoinbaseBody.rate usd => ProviderResult.quote (coinbaseDict usd)
        | CoinbaseBody.noUsdRate => ProviderResult.noData
        | CoinbaseBody.malformed => ProviderResult.failure
      else ProviderResult.noData

/-- A Polygon `prev` aggregate response body, as the client reads it:
a parsed JSON with `status == 'OK'` and a non-empty `results` whose first
bar carries numeric `c,o,h,l,v` (and optionally `t`); a parsed JSON whose
`status` is not `OK` or whose `results` is missing/empty; or a body whose
handling raises (unparseable JSON, a bar missing one of the accessed keys,
or a non-castable field). -/
inductive PolygonBody where
  | good (c o h l : Rat) (v : Int) (t : Option Int)
  | noResults
  | malformed
deriving DecidableEq, Repr

/-- The dict `PolygonClient.get_ticker_data` builds from the previous-day
bar; `source` is `f"polygon_{self.name.lower()}"` with `self.name`
`"Polygon.io"`, and `timestamp` is `result.get('t', 0)`. -/
def polygonDict (symbol : String) (c o h l : Rat) (v : Int) (t : Option Int) : Dict :=
  [("symbol", PyVal.str (strUpper symbol)),
   ("price", PyVal.num c),
   ("open", PyVal.num o),
   ("high", PyVal.num h),
   ("low", PyVal.num l),
   ("volume", PyVal.num (v : Rat)),
   ("source", PyVal.str "polygon_polygon.io"),
   ("timestamp", PyVal.num ((t.getD 0 : Int) : Rat))]

/-- `PolygonClient.get_ticker_data`: without an API key return `None`;
with one, a 200 response with a good bar yields the quote dict, a 200
response without usable results — or any non-200 status — yields `None`,
and timeouts, request errors and parse exceptions are re-raised by
`_handle_error` as `ExternalAPIError`. -/
def polygon_get_ticker_data (hasApiKey : Bool) (symbol : String)
    (net : HttpResult PolygonBody) : ProviderResult :=
  if !hasApiKey then ProviderResult.noData
  else
    match net with
    | HttpResult.timeout => ProviderResult.failure
    | HttpResult.requestError => ProviderResult.failure
    | HttpResult.response status body =>
      if status = 200 then
        match body with
        | PolygonBody.good c o h l v t =>
          ProviderResult.quote (polygonDict symbol c o h l v t)
        | PolygonBody.noResults => ProviderResult.noData
        | PolygonBody.malformed => ProviderResult.failure
      else ProviderResult.noData

/-! ## The info-enrichment step (`TickerService._enhance_with_info`) -/

/-- The `TickerPriceResponse` model (`app/models/ticker.py`): `symbol`,
`price` and `source` are required; the rest are optional with `currency`
defaulting to `"USD"`. `price_data` in `_enhance_with_info` is
`price_response.dict()`, which carries exactly these nine fields. -/
structure TickerPriceResponse where
  symbol : String
  price : Rat
  «open» : Option Rat
  high : Option Rat
  low : Option Rat
  volume : Option Int
  source : String
  timestamp : Option Int
  currency : Option String
deriving DecidableEq, Repr

/-- An optional number as the Python value it serializes to. -/
def optNum (q : Option Rat) : PyVal :=
  match q with
  | some v => PyVal.num v
  | Option.none => PyVal.none

/-- An optional integer as the Python value it serializes to. -/
def optInt (n : Option Int) : PyVal :=
  match n with
  | some v => PyVal.num (v : Rat)
  | Option.none => PyVal.none

/-- An optional string as the Python value it serializes to. -/
def optStr (s : Option String) : PyVal :=
  match s with
  | some v => PyVal.str v
  | Option.none => PyVal.none

/-- `price_response.dict()`: the nine-field price dict. -/
def quoteDict (r : TickerPriceResponse) : Dict :=
  [("symbol", PyVal.str r.symbol),
   ("price", PyVal.num r.price),
   ("open", optNum r.«open»),
   ("high", optNum r.high),
   ("low", optNum r.low),
   ("volume", optInt r.volume),
   ("source", PyVal.str r.source),
   ("timestamp", optInt r.timestamp),
   ("currency", optStr r.currency)]

/-- The merge at the end of `_enhance_with_info`'s `try` block:
`{**info_data, **price_data, "currentPrice": price_data["price"],
"source": f"{price_data['source']}_with_info"}`. With first-match lookup,
precedence highest-first is: the two literal keys, then the price dict,
then the info dict. -/
def combineWithInfo (info_data : Dict) (r : TickerPriceResponse) : Dict :=
  ("source", PyVal.str (r.source ++ "_with_info")) ::
    ("currentPrice", PyVal.num r.price) ::
      (quoteDict r ++ info_data)

/-- The fixed gold `info_data` dict in `_enhance_with_info`. -/
def goldInfoDict : Dict :=
  [("long_name", PyVal.str "Gold Spot Price (XAU/USD)"),
   ("industry", PyVal.str "Precious Metals"),
   ("sector", PyVal.str "Commodities"),
   ("market_cap", PyVal.none),
   ("employees", PyVal.none),
   ("city", PyVal.str "Global"),
   ("state", PyVal.str "Global"),
   ("country", PyVal.str "Global"),
   ("website", PyVal.str "https://www.coinbase.com"),
   ("commodity", PyVal.str "gold"),
   ("currency_pair", PyVal.str "XAU/USD")]

/-- The basic fallback `info_data` dict used when YFinance returns no info. -/
def basicInfoDict (symbol : String) : Dict :=
  [("long_name", PyVal.str (strUpper symbol ++ " Stock")),
   ("industry", PyVal.str "Unknown"),
   ("sector", PyVal.str "Unknown"),
   ("market_cap", PyVal.none),
   ("employees", PyVal.none),
   ("city", PyVal.str "Unknown"),
   ("state", PyVal.str "Unknown"),
   ("country", PyVal.str "Unknown"),
   ("website", PyVal.none)]

/-- Outcome of `await self.yfinance_client.get_ticker_info(symbol)`:
a truthy info dict, a falsy result (`None` or empty), or a raised
exception. -/
inductive InfoFetch where
  | ok (d : Dict)
  | noData
  | fail
deriving DecidableEq, Repr

/-- `TickerService._enhance_with_info`: the gold symbol (case-insensitively)
uses the fixed commodity dict without consulting YFinance; otherwise the
YFinance info (or the basic fallback when it is falsy) is merged under the
price data; if the YFinance call raises, the `except` clause returns
`{**price_data, "long_name": ..., "industry": "Unknown",
"sector": "Unknown", "currentPrice": price_data["price"],
"source": f"{price_data['source']}_basic_info"}`. -/
def enhance_with_info (symbol : String) (yf : InfoFetch)
    (r : TickerPriceResponse) : Dict :=
  if strUpper symbol = "XAU" then
    combineWithInfo goldInfoDict r
  else
    match yf with
    | InfoFetch.ok d => combineWithInfo d r
    | InfoFetch.noData => combineWithInfo (basicInfoDict symbol) r
    | InfoFetch.fail =>
      ("source", PyVal.str (r.source ++ "_basic_info")) ::
        ("currentPrice", PyVal.num r.price) ::
          ("sector", PyVal.str "Unknown") ::
            ("industry", PyVal.str "Unknown") ::
              ("long_name", PyVal.str (strUpper symbol ++ " Stock")) ::
                quoteDict r

/-! ## Helper lemmas -/

/-- After erasing a key, looking it up reports nothing. -/
theorem lookupEntry_eraseKey (l : List (String × CacheEntry)) (k : String) :
    lookupEntry (eraseKey l k) k = Option.none := by
  have h : (eraseKey l k).find? (fun p => p.1 == k) = Option.none := by
    apply List.find?_eq_none.mpr
    intro x hx
    have hmem := List.mem_filter.mp hx
    intro hcontra
    rw [hcontra] at hmem
    simp at hmem
  simp [lookupEntry, h]

/-! ## Claims -/

/-- C1: `TickerService.clear_cache` never succeeds: `__init__` assigns the
cache under the attribute name `cache`, but `clear_cache` dereferences
`self.cache_service`, so every call raises `AttributeError` (re-raised by
its `except` clause) and the cache is left untouched rather than emptied. -/
theorem clear_cache_always_raises :
    ∀ c : CacheService,
      TickerService.clear_cache c = Except.error TickerError.attributeError := by
  intro c
  rfl

/-- C8: every record built by `_enhance_with_info` — the gold path, the
normal YFinance path, the falsy-info fallback and the exception fallback —
carries `currentPrice` equal to the underlying quote's `price`. -/
theorem enhance_currentPrice_eq_price :
    ∀ (symbol : String) (yf : InfoFetch) (r : TickerPriceResponse),
      dget (enhance_with_info symbol yf r) "currentPrice" =
        some (PyVal.num r.price) := by
  intro symbol yf r
  unfold enhance_with_info
  split
  · rfl
  · cases yf <;> rfl

/-- C9: `_resolve_symbol` with the fixed `TICKER_MAPPING` is a pure total
function: any string whose lower-casing is not the single table key
`"gold"` resolves to itself, and any casing of `"gold"` resolves to
`"XAU"`. -/
theorem resolve_symbol_identity_and_case :
    ∀ t : String,
      (strLower t ≠ "gold" → resolve_symbol TICKER_MAPPING t = t) ∧
      (strLower t = "gold" → resolve_symbol TICKER_MAPPING t = "XAU") := by
  intro t
  constructor
  · intro h
    unfold resolve_symbol lookupStr TICKER_MAPPING
    rw [List.find?_cons_of_neg]
    · rfl
    · simp only [beq_iff_eq]
      exact fun hh => h hh.symm
  · intro h
    unfold resolve_symbol lookupStr TICKER_MAPPING
    rw [h]
    rfl

/-- Witness for C9 at concrete inputs: an unmapped symbol resolves to
itself and a mixed-case alias of gold resolves to `XAU`. -/
theorem resolve_symbol_identity_and_case_witness :
    resolve_symbol TICKER_MAPPING "MSFT" = "MSFT" ∧
      resolve_symbol TICKER_MAPPING "GoLd" = "XAU" :=
  ⟨(resolve_symbol_identity_and_case "MSFT").1 (by decide),
   (resolve_symbol_identity_and_case "GoLd").2 (by decide)⟩

/-- C5: an entry is valid iff strictly less than the TTL has elapsed since
it was stored; a `get` at or past the TTL reports absent and evicts the
entry; and any value `get` does return comes from an entry within its TTL —
no entry is ever returned past its TTL. -/
theorem cache_get_ttl_spec :
    ∀ (c : CacheService) (now : Int) (key : String),
      (∀ e, lookupEntry c.cache key = some e →
        (c.is_valid e now = true ↔ now - e.timestamp < c.ttl) ∧
        (c.ttl ≤ now - e.timestamp →
          (CacheService.get c now key).1 = Option.none ∧
          lookupEntry (CacheService.get c now key).2.cache key = Option.none)) ∧
      (∀ d, (CacheService.get c now key).1 = some d →
        ∃ e, lookupEntry c.cache key = some e ∧ e.data = d ∧
          now - e.timestamp < c.ttl) := by
  intro c now key
  constructor
  · intro e he
    constructor
    · simp [CacheService.is_valid]
    · intro hexp
      have hv : c.is_valid e now = false := by
        simp [CacheService.is_valid]
        omega
      have hget : CacheService.get c now key =
          (Option.none, { c with cache := eraseKey c.cache key }) := by
        simp [CacheService.get, he, hv]
      rw [hget]
      exact ⟨rfl, lookupEntry_eraseKey c.cache key⟩
  · intro d hd
    cases he : lookupEntry c.cache key with
    | none =>
      simp [CacheService.get, he] at hd
    | some e =>
      cases hv : c.is_valid e now with
      | false =>
        simp [CacheService.get, he, hv] at hd
      | true =>
        simp [CacheService.get, he, hv] at hd
        refine ⟨e, rfl, hd, ?_⟩
        have hvv := hv
        simp [CacheService.is_valid] at hvv
        exact hvv

/-- Witness for C5: a concrete cache whose only entry was stored at time 0
with TTL 300; a `get` at time 300 reports absent and evicts the entry. -/
theorem cache_get_ttl_spec_witness :
    (CacheService.get ⟨[("k", ⟨[("price", PyVal.num 1)], 0⟩)], 300⟩ 300 "k").1 =
        Option.none ∧
      lookupEntry
        (CacheService.get ⟨[("k", ⟨[("price", PyVal.num 1)], 0⟩)], 300⟩ 300 "k").2.cache
        "k" = Option.none :=
  ((cache_get_ttl_spec ⟨[("k", ⟨[("price", PyVal.num 1)], 0⟩)], 300⟩ 300 "k").1
    ⟨[("price", PyVal.num 1)], 0⟩ rfl).2 (by decide)

/-- A concrete quote response, as the Coinbase gold path would produce it. -/
def priceRespEx : TickerPriceResponse :=
  ⟨"XAU", 2031.5, some 2031.5, some 2031.5, some 2031.5, some 0,
    "coinbase_gold", Option.none, some "USD"⟩

/-- A concrete YFinance-shaped info dict; `get_ticker_info` records always
carry a `source` (`"yfinance_info"`) and a `symbol`. -/
def infoEx : Dict :=
  [("symbol", PyVal.str "XAU"),
   ("long_name", PyVal.str "Gold"),
   ("source", PyVal.str "yfinance_info")]

/-- C2 counterexample: `source` is a field name present in both the quote
dict and the info dict, yet the merged record does not carry the quote's
value for it — the merge rewrites `source` to the quote's source with
`_with_info` appended. -/
theorem merge_source_not_quote_value :
    (dget (quoteDict priceRespEx) "source").isSome = true ∧
      (dget infoEx "source").isSome = true ∧
      dget (combineWithInfo infoEx priceRespEx) "source" ≠
        dget (quoteDict priceRespEx) "source" := by
  refine ⟨rfl, rfl, ?_⟩
  decide

/-- C2 (amended): in the merged record, every field name present in both
the quote dict and the info dict other than `source` carries the quote's
value; `source` instead carries the quote's source with `_with_info`
appended, and `currentPrice` is set to the quote's `price`. -/
theorem merge_precedence_except_source :
    ∀ (info : Dict) (r : TickerPriceResponse) (k : String),
      ((dget (quoteDict r) k).isSome → (dget info k).isSome → k ≠ "source" →
        dget (combineWithInfo info r) k = dget (quoteDict r) k) ∧
      dget (combineWithInfo info r) "source" =
        some (PyVal.str (r.source ++ "_with_info")) ∧
      dget (combineWithInfo info r) "currentPrice" = some (PyVal.num r.price) := by
  intro info r k
  refine ⟨?_, rfl, rfl⟩
  intro h1 _h2 hk
  have hcp : dget (quoteDict r) "currentPrice" = Option.none := rfl
  have hkcp : k ≠ "currentPrice" := by
    intro hcontra
    rw [hcontra, hcp] at h1
    simp at h1
  have hq : ((quoteDict r).find? (fun p => p.1 == k)).isSome := by
    simpa [dget] using h1
  obtain ⟨x, hx⟩ := Option.isSome_iff_exists.mp hq
  unfold combineWithInfo dget
  rw [List.find?_cons_of_neg, List.find?_cons_of_neg, List.find?_append, hx]
  · rfl
  · simp only [beq_iff_eq]
    exact fun hh => hkcp hh.symm
  · simp only [beq_iff_eq]
    exact fun hh => hk hh.symm

/-- Witness for the amended C2: `symbol` is present in both dicts and the
merged record carries the quote's value. -/
theorem merge_precedence_except_source_witness :
    dget (combineWithInfo infoEx priceRespEx) "symbol" =
      dget (quoteDict priceRespEx) "symbol" :=
  (merge_precedence_except_source infoEx priceRespEx "symbol").1
    (by decide) (by decide) (by decide)

/-- The pipeline loop raises `DataSourceUnavailableError` exactly when no
source in the list produces a (truthy) quote dict; in that case the loop
leaves the cache it was given untouched. -/
theorem get_price_loop_exhaust (fetch : Source → ProviderResult) (now : Int)
    (key symbol : String)
    (hq : ∀ s d, fetch s = ProviderResult.quote d → d ≠ []) :
    ∀ (srcs : List Source) (c : CacheService),
      ((get_price_loop fetch now key symbol srcs c).result =
          Except.error (TickerError.dataSourceUnavailable symbol) ↔
        ∀ s ∈ srcs,
          fetch s = ProviderResult.noData ∨ fetch s = ProviderResult.failure) ∧
      ((∀ s ∈ srcs,
          fetch s = ProviderResult.noData ∨ fetch s = ProviderResult.failure) →
        (get_price_loop fetch now key symbol srcs c).cache = c) := by
  intro srcs
  induction srcs with
  | nil =>
    intro c
    constructor
    · simp [get_price_loop]
    · intro _
      rfl
  | cons s rest ih =>
    intro c
    cases hs : fetch s with
    | quote d =>
      have hd : d.isEmpty = false := by
        cases d with
        | nil => exact absurd rfl (hq s [] hs)
        | cons a l => rfl
      constructor
      · simp [get_price_loop, hs, hd]
      · intro hall
        rcases hall s (by simp) with h | h <;> rw [hs] at h <;> cases h
    | noData =>
      have hred : get_price_loop fetch now key symbol (s :: rest) c =
          ⟨(get_price_loop fetch now key symbol rest c).result,
           (get_price_loop fetch now key symbol rest c).cache,
           s :: (get_price_loop fetch now key symbol rest c).tried⟩ := by
        simp [get_price_loop, hs]
      rw [hred]
      constructor
      · rw [(ih c).1]
        constructor
        · intro hrest x hx
          rcases List.mem_cons.mp hx with hxs | hxr
          · rw [hxs]
            exact Or.inl hs
          · exact hrest x hxr
        · intro hall x hx
          exact hall x (List.mem_cons_of_mem s hx)
      · intro hall
        exact (ih c).2 (fun x hx => hall x (List.mem_cons_of_mem s hx))
    | failure =>
      have hred : get_price_loop fetch now key symbol (s :: rest) c =
          ⟨(get_price_loop fetch now key symbol rest c).result,
           (get_price_loop fetch now key symbol rest c).cache,
           s :: (get_price_loop fetch now key symbol rest c).tried⟩ := by
        simp [get_price_loop, hs]
      rw [hred]
      constructor
      · rw [(ih c).1]
        constructor
        · intro hrest x hx
          rcases List.mem_cons.mp hx with hxs | hxr
          · rw [hxs]
            exact Or.inr hs
          · exact hrest x hxr
        · intro hall x hx
          exact hall x (List.mem_cons_of_mem s hx)
      · intro hall
        exact (ih c).2 (fun x hx => hall x (List.mem_cons_of_mem s hx))

/-- When the initial cache read reports absent, `get_price_data` runs the
source loop on the cache state left by that read. -/
theorem get_price_data_miss (svc : TickerService) (c : CacheService) (now : Int)
    (fetch : Source → ProviderResult) (ticker : String)
    (hmiss : (CacheService.get c now
        ("price_" ++ resolve_symbol svc.ticker_mapping ticker)).1 = Option.none) :
    get_price_data svc c now fetch ticker =
      get_price_loop fetch now
        ("price_" ++ resolve_symbol svc.ticker_mapping ticker)
        (resolve_symbol svc.ticker_mapping ticker)
        (get_price_data_sources svc (resolve_symbol svc.ticker_mapping ticker))
        (CacheService.get c now
          ("price_" ++ resolve_symbol svc.ticker_mapping ticker)).2 := by
  have hpair : CacheService.get c now
      ("price_" ++ resolve_symbol svc.ticker_mapping ticker) =
      (Option.none, (CacheService.get c now
        ("price_" ++ resolve_symbol svc.ticker_mapping ticker)).2) := by
    rw [← hmiss]
  simp only [get_price_data]
  rw [hpair]

/-- C3 (amended): when the initial cache read reports absent,
`get_price_data` raises `DataSourceUnavailableError` exactly when every
adapter in the ordered source list yields no data or raises (a raised
adapter failure is never fatal — the loop continues past it); in that
failure case no cache entry is written: the final cache state equals the
state left by the initial read (which may have lazily evicted an expired
entry under the queried key). -/
theorem get_price_exhaustion_spec :
    ∀ (svc : TickerService) (c : CacheService) (now : Int)
      (fetch : Source → ProviderResult) (ticker : String),
      (∀ s d, fetch s = ProviderResult.quote d → d ≠ []) →
      (CacheService.get c now
        ("price_" ++ resolve_symbol svc.ticker_mapping ticker)).1 = Option.none →
      (((get_price_data svc c now fetch ticker).result =
          Except.error (TickerError.dataSourceUnavailable
            (resolve_symbol svc.ticker_mapping ticker))) ↔
        ∀ s ∈ get_price_data_sources svc (resolve_symbol svc.ticker_mapping ticker),
          fetch s = ProviderResult.noData ∨ fetch s = ProviderResult.failure) ∧
      ((∀ s ∈ get_price_data_sources svc (resolve_symbol svc.ticker_mapping ticker),
          fetch s = ProviderResult.noData ∨ fetch s = ProviderResult.failure) →
        (get_price_data svc c now fetch ticker).cache =
          (CacheService.get c now
            ("price_" ++ resolve_symbol svc.ticker_mapping ticker)).2) := by
  intro svc c now fetch ticker hq hmiss
  rw [get_price_data_miss svc c now fetch ticker hmiss]
  exact get_price_loop_exhaust fetch now _ _ hq _ _

/-- Witness for the amended C3: with an empty cache and every adapter
reporting no data, the concrete run raises `DataSourceUnavailableError`
and leaves the cache empty. -/
theorem get_price_exhaustion_spec_witness :
    (get_price_data ⟨[], false⟩ ⟨[], 300⟩ 0
        (fun _ => ProviderResult.noData) "AAPL").result =
        Except.error (TickerError.dataSourceUnavailable "AAPL") ∧
      (get_price_data ⟨[], false⟩ ⟨[], 300⟩ 0
        (fun _ => ProviderResult.noData) "AAPL").cache = ⟨[], 300⟩ := by
  have h := get_price_exhaustion_spec ⟨[], false⟩ ⟨[], 300⟩ 0
    (fun _ => ProviderResult.noData) "AAPL" (fun s d hsd => by cases hsd) rfl
  exact ⟨h.1.mpr (fun s _ => Or.inl rfl), h.2 (fun s _ => Or.inl rfl)⟩

/-- A cache whose only entry, keyed by the queried symbol, is already
expired at time 300 (stored at 0 with TTL 300). -/
def cacheExpired : CacheService :=
  ⟨[("price_AAPL", ⟨[("price", PyVal.num 190)], 0⟩)], 300⟩

/-- C3 counterexample: a failing run is not always a no-op on the cache —
here every adapter reports no data, the run raises
`DataSourceUnavailableError`, and the cache state has still changed,
because the initial read lazily evicted the expired entry. -/
theorem get_price_error_cache_changed :
    (get_price_data ⟨[], false⟩ cacheExpired 300
        (fun _ => ProviderResult.noData) "AAPL").result =
        Except.error (TickerError.dataSourceUnavailable "AAPL") ∧
      (get_price_data ⟨[], false⟩ cacheExpired 300
        (fun _ => ProviderResult.noData) "AAPL").cache ≠ cacheExpired := by
  refine ⟨rfl, ?_⟩
  decide

/-- C4: the provider list puts Coinbase first exactly when the symbol
upper-cases to the canonical gold ticker, contains Polygon exactly when it
is configured, and always ends with YFinance; and when the spot adapter
returns a quote for gold, the run stops after consulting only Coinbase. -/
theorem sources_order_and_short_circuit :
    ∀ (svc : TickerService) (symbol ticker : String) (c : CacheService)
      (now : Int) (fetch : Source → ProviderResult) (d : Dict),
      (strUpper symbol = "XAU" →
        (get_price_data_sources svc symbol).head? = some Source.coinbase) ∧
      (strUpper symbol ≠ "XAU" →
        Source.coinbase ∉ get_price_data_sources svc symbol) ∧
      (Source.polygon ∈ get_price_data_sources svc symbol ↔
        svc.polygon_client = true) ∧
      (∃ pre, get_price_data_sources svc symbol = pre ++ [Source.yfinance]) ∧
      (strUpper (resolve_symbol svc.ticker_mapping ticker) = "XAU" →
        fetch Source.coinbase = ProviderResult.quote d →
        d ≠ [] →
        (CacheService.get c now
          ("price_" ++ resolve_symbol svc.ticker_mapping ticker)).1 = Option.none →
        (get_price_data svc c now fetch ticker).result = Except.ok d ∧
        (get_price_data svc c now fetch ticker).tried = [Source.coinbase]) := by
  intro svc symbol ticker c now fetch d
  obtain ⟨tm, pc⟩ := svc
  refine ⟨?_, ?_, ?_, ⟨_, rfl⟩, ?_⟩
  · intro h
    unfold get_price_data_sources
    rw [if_pos h]
    rfl
  · intro h
    unfold get_price_data_sources
    rw [if_neg h]
    cases pc <;> simp
  · unfold get_price_data_sources
    by_cases hx : strUpper symbol = "XAU"
    · rw [if_pos hx]
      cases pc <;> simp
    · rw [if_neg hx]
      cases pc <;> simp
  · intro h hf hd hmiss
    have hde : d.isEmpty = false := by
      cases d with
      | nil => exact absurd rfl hd
      | cons a l => rfl
    rw [get_price_data_miss _ _ _ _ _ hmiss]
    have hsrc : get_price_data_sources ⟨tm, pc⟩
        (resolve_symbol tm ticker) =
        Source.coinbase ::
          ((if pc then [Source.polygon] else []) ++ [Source.yfinance]) := by
      unfold get_price_data_sources
      rw [if_pos h]
      rfl
    rw [hsrc]
    simp [get_price_loop, hf, hde]

/-- A service configured like production for gold: the alias table maps
`gold` to `XAU` and a Polygon key is present. -/
def svcGold : TickerService := ⟨[("gold", "XAU")], true⟩

/-- An adapter environment where only the spot-price source has data. -/
def fetchGoldOnly : Source → ProviderResult :=
  fun s =>
    match s with
    | Source.coinbase => ProviderResult.quote (coinbaseDict 2031.5)
    | Source.polygon => ProviderResult.noData
    | Source.yfinance => ProviderResult.noData

/-- Witness for C4: for the resolved gold symbol Coinbase heads the list,
Polygon is present (configured), and a run in which the spot adapter
succeeds returns its quote having consulted only Coinbase. -/
theorem sources_order_and_short_circuit_witness :
    (get_price_data_sources svcGold "XAU").head? = some Source.coinbase ∧
      Source.polygon ∈ get_price_data_sources svcGold "XAU" ∧
      (get_price_data svcGold ⟨[], 300⟩ 0 fetchGoldOnly "gold").result =
        Except.ok (coinbaseDict 2031.5) ∧
      (get_price_data svcGold ⟨[], 300⟩ 0 fetchGoldOnly "gold").tried =
        [Source.coinbase] := by
  have h := sources_order_and_short_circuit svcGold "XAU" "gold" ⟨[], 300⟩ 0
    fetchGoldOnly (coinbaseDict 2031.5)
  have he := h.2.2.2.2 (by decide) rfl (by decide) rfl
  exact ⟨h.1 (by decide), (h.2.2.1).mpr rfl, he.1, he.2⟩

/-- C6: the Coinbase adapter returns no data for any symbol not
upper-casing to `XAU`, independent of the network outcome (the guard runs
before any network call); and every quote it does return follows the
spot-price convention `open = high = low = price` with volume 0. -/
theorem coinbase_non_gold_and_spot_convention :
    ∀ (symbol : String) (net : HttpResult CoinbaseBody) (d : Dict),
      (strUpper symbol ≠ "XAU" →
        coinbase_get_ticker_data symbol net = ProviderResult.noData) ∧
      (coinbase_get_ticker_data symbol net = ProviderResult.quote d →
        dget d "open" = dget d "price" ∧ dget d "high" = dget d "price" ∧
        dget d "low" = dget d "price" ∧ dget d "volume" = some (PyVal.num 0) ∧
        ∃ p, dget d "price" = some (PyVal.num p) ∧ d = coinbaseDict p) := by
  intro symbol net d
  constructor
  · intro h
    unfold coinbase_get_ticker_data
    rw [if_pos h]
  · intro hq
    by_cases h : strUpper symbol ≠ "XAU"
    · simp [coinbase_get_ticker_data, h] at hq
    · cases net with
      | timeout => simp [coinbase_get_ticker_data, h] at hq
      | requestError => simp [coinbase_get_ticker_data, h] at hq
      | response status body =>
        by_cases hst : status = 200
        · subst hst
          cases body with
          | rate usd =>
            simp [coinbase_get_ticker_data, h] at hq
            subst hq
            exact ⟨rfl, rfl, rfl, rfl, usd, rfl, rfl⟩
          | noUsdRate => simp [coinbase_get_ticker_data, h] at hq
          | malformed => simp [coinbase_get_ticker_data, h] at hq
        · simp [coinbase_get_ticker_data, h, hst] at hq

/-- Witness for C6: a lower-case non-gold symbol short-circuits to no data,
and the concrete gold quote at 2031.5 satisfies the spot convention. -/
theorem coinbase_non_gold_and_spot_convention_witness :
    coinbase_get_ticker_data "aapl"
        (HttpResult.response 200 (CoinbaseBody.rate 2031.5)) =
        ProviderResult.noData ∧
      dget (coinbaseDict 2031.5) "open" = dget (coinbaseDict 2031.5) "price" ∧
      dget (coinbaseDict 2031.5) "high" = dget (coinbaseDict 2031.5) "price" ∧
      dget (coinbaseDict 2031.5) "low" = dget (coinbaseDict 2031.5) "price" ∧
      dget (coinbaseDict 2031.5) "volume" = some (PyVal.num 0) := by
  have h := coinbase_non_gold_and_spot_convention "aapl"
    (HttpResult.response 200 (CoinbaseBody.rate 2031.5)) (coinbaseDict 2031.5)
  have h2 := coinbase_non_gold_and_spot_convention "XAU"
    (HttpResult.response 200 (CoinbaseBody.rate 2031.5)) (coinbaseDict 2031.5)
  have hs := h2.2 rfl
  exact ⟨h.1 (by decide), hs.1, hs.2.1, hs.2.2.1, hs.2.2.2.1⟩

/-- C7 (amended): with an API key, any received response with a status
outside 2xx yields no data (not a raised failure), and the pipeline then
proceeds to the next adapter; a raised failure arises exactly from a
timeout, a connection error, or an unexpected parsing error in a
status-200 body. -/
theorem polygon_status_noData_and_failure_spec :
    ∀ (symbol : String) (status : Nat) (body : PolygonBody)
      (net : HttpResult PolygonBody) (svc : TickerService) (c : CacheService)
      (now : Int) (fetch : Source → ProviderResult) (ticker : String) (d : Dict),
      (¬ (200 ≤ status ∧ status ≤ 299) →
        polygon_get_ticker_data true symbol (HttpResult.response status body) =
          ProviderResult.noData) ∧
      (polygon_get_ticker_data true symbol net = ProviderResult.failure ↔
        net = HttpResult.timeout ∨ net = HttpResult.requestError ∨
          net = HttpResult.response 200 PolygonBody.malformed) ∧
      (svc.polygon_client = true →
        strUpper (resolve_symbol svc.ticker_mapping ticker) ≠ "XAU" →
        (CacheService.get c now
          ("price_" ++ resolve_symbol svc.ticker_mapping ticker)).1 = Option.none →
        fetch Source.polygon = ProviderResult.noData →
        fetch Source.yfinance = ProviderResult.quote d →
        d ≠ [] →
        (get_price_data svc c now fetch ticker).result = Except.ok d ∧
        (get_price_data svc c now fetch ticker).tried =
          [Source.polygon, Source.yfinance]) := by
  intro symbol status body net svc c now fetch ticker d
  refine ⟨?_, ?_, ?_⟩
  · intro h
    have hst : ¬ status = 200 := by omega
    simp [polygon_get_ticker_data, hst]
  · cases net with
    | timeout => simp [polygon_get_ticker_data]
    | requestError => simp [polygon_get_ticker_data]
    | response status2 body2 =>
      by_cases hst : status2 = 200
      · subst hst
        cases body2 <;> simp [polygon_get_ticker_data]
      · simp [polygon_get_ticker_data, hst]
  · intro hpc h2 hmiss hfp hfy hd
    obtain ⟨tm, pc⟩ := svc
    have hde : d.isEmpty = false := by
      cases d with
      | nil => exact absurd rfl hd
      | cons a l => rfl
    rw [get_price_data_miss _ _ _ _ _ hmiss]
    have hsrc : get_price_data_sources ⟨tm, pc⟩ (resolve_symbol tm ticker) =
        Source.polygon :: [Source.yfinance] := by
      unfold get_price_data_sources
      rw [if_neg h2, hpc]
      rfl
    rw [hsrc]
    simp [get_price_loop, hfp, hfy, hde]

/-- C7 counterexample: a raised `ExternalAPIError` is not only produced by
network-level failures — a status-200 response whose body handling raises
(malformed JSON, or a bar missing an accessed key) is re-raised as a
failure by `_handle_error`, although it is not a timeout or connection
error. -/
theorem polygon_parse_error_raises :
    polygon_get_ticker_data true "AAPL"
        (HttpResult.response 200 PolygonBody.malformed) =
        ProviderResult.failure ∧
      isNetworkFailure (HttpResult.response 200 PolygonBody.malformed) = false :=
  ⟨rfl, rfl⟩

/-- A concrete YFinance quote dict for `AAPL`. -/
def yfDictEx : Dict :=
  [("symbol", PyVal.str "AAPL"),
   ("price", PyVal.num 190.12),
   ("open", PyVal.num 190),
   ("high", PyVal.num 191),
   ("low", PyVal.num 189),
   ("volume", PyVal.num 52000000),
   ("source", PyVal.str "yfinance")]

/-- An adapter environment where Polygon receives an HTTP 429 and YFinance
has data. -/
def fetch429 : Source → ProviderResult :=
  fun s =>
    match s with
    | Source.coinbase => ProviderResult.noData
    | Source.polygon =>
      polygon_get_ticker_data true "AAPL"
        (HttpResult.response 429 PolygonBody.noResults)
    | Source.yfinance => ProviderResult.quote yfDictEx

/-- Witness for the amended C7: an HTTP 429 yields no data from Polygon and
the concrete run proceeds to YFinance and returns its quote. -/
theorem polygon_status_noData_and_failure_spec_witness :
    polygon_get_ticker_data true "AAPL"
        (HttpResult.response 429 PolygonBody.noResults) =
        ProviderResult.noData ∧
      (get_price_data svcGold ⟨[], 300⟩ 0 fetch429 "AAPL").result =
        Except.ok yfDictEx ∧
      (get_price_data svcGold ⟨[], 300⟩ 0 fetch429 "AAPL").tried =
        [Source.polygon, Source.yfinance] := by
  have h := polygon_status_noData_and_failure_spec "AAPL" 429 PolygonBody.noResults
    HttpResult.timeout svcGold ⟨[], 300⟩ 0 fetch429 "AAPL" yfDictEx
  have hrun := h.2.2 rfl (by decide) rfl rfl rfl (by decide)
  exact ⟨h.1 (by decide), hrun.1, hrun.2⟩

/-- C10: the gold special-casing keys on the upper-cased resolved symbol,
so any casing of `XAU` puts the spot adapter first in the source list,
makes the enrichment step use the fixed gold record independently of the
YFinance info fetch, and is accepted by the Coinbase adapter. -/
theorem gold_special_casing_case_insensitive :
    ∀ (svc : TickerService) (symbol : String) (yf : InfoFetch)
      (r : TickerPriceResponse) (p : Rat),
      strUpper symbol = "XAU" →
      (get_price_data_sources svc symbol).head? = some Source.coinbase ∧
      enhance_with_info symbol yf r = combineWithInfo goldInfoDict r ∧
      coinbase_get_ticker_data symbol
          (HttpResult.response 200 (CoinbaseBody.rate p)) =
        ProviderResult.quote (coinbaseDict p) := by
  intro svc symbol yf r p h
  refine ⟨?_, ?_, ?_⟩
  · unfold get_price_data_sources
    rw [if_pos h]
    rfl
  · unfold enhance_with_info
    rw [if_pos h]
  · unfold coinbase_get_ticker_data
    rw [if_neg (fun hn => hn h)]
    rfl

/-- Witness for C10 at the lower-case symbol `xau`. -/
theorem gold_special_casing_case_insensitive_witness :
    (get_price_data_sources svcGold "xau").head? = some Source.coinbase ∧
      enhance_with_info "xau" InfoFetch.fail priceRespEx =
        combineWithInfo goldInfoDict priceRespEx ∧
      coinbase_get_ticker_data "xau"
          (HttpResult.response 200 (CoinbaseBody.rate 2031.5)) =
        ProviderResult.quote (coinbaseDict 2031.5) :=
  gold_special_casing_case_insensitive svcGold "xau" InfoFetch.fail priceRespEx
    2031.5 (by decide)
